import Mathlib

/-!
Shallow embedding of the report-generation pipeline of
robot-coder/insight-automator.

The embedded code is `src/main.py` (class `ResearchAgent`: methods
`fetch_web_data`, `generate_research_report`, `run`, and the module-level
`main`) together with the placeholder artifact generators of
`src/tools.py` (`generate_presentation`, `narrate_text`) and the set of
names the two modules define and import.

External collaborators (the topic decomposer, HTTP transport, the
extractor `analyze_data` — which `main.py` imports from `tools` but which
`tools.py` does not define — matplotlib plotting, the presentation and
narration calls, and the MCP sink) are modelled as oracle functions
gathered in an environment record; each collaborator either returns a
value or fails, mirroring a raised Python exception by `Except.error`
(and, for the HTTP transport, mirroring `requests.RequestException` by
`Option.none`, since that is the only exception class
`ResearchAgent.fetch_web_data` catches).

Library calls with fixed semantics that the control flow depends on are
embedded concretely: `pd.concat` raises `ValueError` on an empty list of
frames and otherwise concatenates the rows, and Python's
`str.replace(' ', '_')` replaces every space character.
-/

/-- One extracted row: a mapping from field name to a (rendered) scalar
value, modelling one row of a pandas DataFrame built from dicts. -/
abbrev Row : Type := List (String × String)

/-- A pandas DataFrame, modelled by its list of rows. Index labels are
not modelled: `generate_research_report` concatenates with
`ignore_index=True`, so positions carry no information beyond order. -/
structure DataFrame where
  rows : List Row
deriving DecidableEq

/-- The report dictionary compiled at src/main.py lines 92-99. It has
exactly the keys `topic`, `subtopics`, `data`, `visualization`,
`presentation`, `narration` — in particular it has no error list and no
per-artifact status field. -/
structure Report where
  topic : String
  subtopics : List String
  data : DataFrame
  visualization : String
  presentation : String
  narration : String
deriving DecidableEq

/-- The report dictionary of src/main.py lines 92-99 contains no key
recording errors or failures (its keys are exactly `topic`, `subtopics`,
`data`, `visualization`, `presentation`, `narration`), so the list of
error entries carried by a Report is constantly empty. -/
def reportErrorEntries (_ : Report) : List String := []

/-- The external collaborators of `generate_research_report`, as oracles:
`decompose` is `generate_research_topics`, `httpGet` is `requests.get` +
`raise_for_status` + BeautifulSoup text extraction (`none` models a
raised `requests.RequestException`), `analyze` is `analyze_data`,
`plotSave` is the matplotlib step 4 block (figure, bar plot of the
`value` column, title, savefig; any of which may raise), `present` is
`create_presentation`, `narrate` is `narrate_report`. -/
structure Env where
  decompose : String → Except String (List String)
  httpGet : String → Option String
  analyze : String → Except String DataFrame
  plotSave : DataFrame → String → Except String Unit
  present : String → String → Except String String
  narrate : String → DataFrame → Except String String

/-- Python's `subtopic.replace(' ', '_')`: every space character becomes
an underscore. -/
def replaceSpaces (s : String) : String :=
  String.mk (s.data.map (fun c => if c = ' ' then '_' else c))

/-- The f-string at src/main.py line 70: the source locator for a
subtopic. -/
def urlFor (subtopic : String) : String :=
  "https://en.wikipedia.org/wiki/" ++ replaceSpaces subtopic

/-- `ResearchAgent.fetch_web_data` (src/main.py lines 43-56): on a
`requests.RequestException` it logs and returns the empty string;
otherwise it returns the page text. -/
def fetch_web_data (env : Env) (url : String) : String :=
  match env.httpGet url with
  | some text => text
  | none => ""

/-- The value `analyze_data(self.fetch_web_data(url))` computed for one
subtopic in the step-2 loop of `generate_research_report`. -/
def subtopicDF (env : Env) (sub : String) : Except String DataFrame :=
  env.analyze (fetch_web_data env (urlFor sub))

/-- The step-2 loop of `generate_research_report` (src/main.py lines
68-73), instrumented with the list of URLs passed to `fetch_web_data`.
If `analyze_data` raises, the loop stops there and the exception
propagates (to the method's catch-all); a fetch failure does not stop
the loop, since `fetch_web_data` degrades to `""`. -/
def collectLoop (env : Env) : List String → List String × Except String (List DataFrame)
  | [] => ([], Except.ok [])
  | sub :: rest =>
    match env.analyze (fetch_web_data env (urlFor sub)) with
    | Except.error e => ([urlFor sub], Except.error e)
    | Except.ok df =>
      match collectLoop env rest with
      | (urls, Except.error e) => (urlFor sub :: urls, Except.error e)
      | (urls, Except.ok dfs) => (urlFor sub :: urls, Except.ok (df :: dfs))

/-- `pd.concat(data_frames, ignore_index=True)` (src/main.py line 76):
raises `ValueError` when the list is empty, otherwise concatenates all
rows in list order. -/
def pdConcat (dfs : List DataFrame) : Except String DataFrame :=
  if dfs.isEmpty then Except.error "No objects to concatenate"
  else Except.ok ⟨(dfs.map DataFrame.rows).flatten⟩

/-- The observable outcome of one call to `generate_research_report`:
the returned dictionary (`none` models the empty dict returned by the
catch-all at src/main.py line 103), plus an instrumentation trace — the
URLs passed to `fetch_web_data`, the tables passed to the plotting step,
and how many times `create_presentation` and `narrate_report` were
invoked. -/
structure RunResult where
  report : Option Report
  fetchQueries : List String
  visArgs : List DataFrame
  presentCalls : Nat
  narrateCalls : Nat
deriving DecidableEq

/-- `ResearchAgent.generate_research_report` (src/main.py lines 58-103).
The entire body sits in one `try` block whose handler catches every
`Exception`, logs it, and returns the empty dict; so the first failing
step aborts the remainder and the caller sees `{}` (here: `none`). -/
def generate_research_report (env : Env) (topic : String) : RunResult :=
  match env.decompose topic with
  | Except.error _ => ⟨none, [], [], 0, 0⟩
  | Except.ok subtopics =>
    match collectLoop env subtopics with
    | (urls, Except.error _) => ⟨none, urls, [], 0, 0⟩
    | (urls, Except.ok dataFrames) =>
      match pdConcat dataFrames with
      | Except.error _ => ⟨none, urls, [], 0, 0⟩
      | Except.ok combined =>
        match env.plotSave combined topic with
        | Except.error _ => ⟨none, urls, [combined], 0, 0⟩
        | Except.ok _ =>
          match env.present topic "analysis_plot.png" with
          | Except.error _ => ⟨none, urls, [combined], 1, 0⟩
          | Except.ok presentationPath =>
            match env.narrate topic combined with
            | Except.error _ => ⟨none, urls, [combined], 1, 1⟩
            | Except.ok narration =>
              ⟨some ⟨topic, subtopics, combined, "analysis_plot.png",
                     presentationPath, narration⟩,
               urls, [combined], 1, 1⟩

/-- Environment for the startup surface: the pipeline collaborators plus
agent construction (`MCPClient(...)` and `_create_service_context`, which
re-raises on failure) and the MCP submission call
`mcp_client.send_report`, which receives whatever dict
`generate_research_report` returned (possibly the empty one). -/
structure SysEnv extends Env where
  agentInitOk : Bool
  sendReport : Option Report → Except String Unit

/-- `ResearchAgent.run` (src/main.py lines 105-115): generate the report,
submit it, and catch every exception, logging a single error. The result
records the report object the method holds (unchanged by submission) and
how many errors were logged. `run` itself never raises. -/
def ResearchAgent.run (env : SysEnv) (mainTopic : String) : Option Report × Nat :=
  let r := generate_research_report env.toEnv mainTopic
  match env.sendReport r.report with
  | Except.ok _ => (r.report, 0)
  | Except.error _ => (r.report, 1)

/-- The module entry point (src/main.py lines 117-126): `main` hardcodes
the MCP server URL and the topic "Artificial Intelligence in Healthcare"
(no CLI arguments are read), builds the agent — whose constructor may
raise, making `asyncio.run(main())` exit non-zero — and calls `run`,
which swallows every failure; so on successful construction the process
exits 0 whatever `run` encountered. The result is the process exit
status. -/
def pythonMain (env : SysEnv) : Nat :=
  if env.agentInitOk then
    match ResearchAgent.run env "Artificial Intelligence in Healthcare" with
    | _ => 0
  else 1

/-- `generate_presentation` (src/tools.py lines 176-195): a placeholder
whose `try` block only logs and returns `True`; logging is modelled as
effect-free, so the `except` branch is unreachable and the function is
constantly `True`. The `filename` parameter is accepted and unused. -/
def generate_presentation (_slides : List Row) (_filename : String) : Bool :=
  true

/-- `narrate_text` (src/tools.py lines 197-215): a placeholder whose
`try` block only logs and returns `True`; the `except` branch is
unreachable and the function is constantly `True`. -/
def narrate_text (_text : String) : Bool :=
  true

/-- Every name bound at the top level of the module `tools`
(src/tools.py): its ten function definitions plus the names it imports
(`from typing import List, Dict, Optional, Any` and the aliased or plain
names it imports), plus its `logger`. `from tools import X` succeeds
exactly when `X` is among these. -/
def toolsModuleNamespace : List String :=
  ["fetch_web_page", "parse_html_for_data", "extract_data_from_html",
   "fetch_and_parse", "generate_plot", "create_dataframe",
   "generate_report", "save_text_report", "generate_presentation",
   "narrate_text",
   "requests", "BeautifulSoup", "pd", "plt",
   "List", "Dict", "Optional", "Any", "logging", "logger"]

/-- The names src/main.py line 8 imports from `tools`:
`from tools import generate_research_topics, analyze_data,
create_presentation, narrate_report`. -/
def mainImportsFromTools : List String :=
  ["generate_research_topics", "analyze_data",
   "create_presentation", "narrate_report"]

/-- Python import semantics for `from tools import a, b, ...`: the
statement succeeds iff every imported name is bound in the `tools`
module namespace; otherwise it raises `ImportError` while `main.py` is
being loaded. -/
def importFromToolsSucceeds : Bool :=
  mainImportsFromTools.all (fun n => toolsModuleNamespace.contains n)

/-- Decidable form of "this row carries a source tag identifying a
subtopic of `subs`": some field of the row holds one of the subtopic
strings. -/
def rowTagged (subs : List String) (row : Row) : Bool :=
  row.any (fun p => subs.contains p.2)

/-- Concrete table returned by the test extractor for the page of the
subtopic "History of AI". -/
def dfHist : DataFrame := ⟨[[("value", "1")], [("value", "2")]]⟩

/-- A concrete environment in which every collaborator succeeds on the
topic "AI": one subtopic, one page, two extracted rows. -/
def testEnv : Env where
  decompose := fun t =>
    if t = "AI" then Except.ok ["History of AI"]
    else Except.error "decomposition failed"
  httpGet := fun u =>
    if u = "https://en.wikipedia.org/wiki/History_of_AI" then some "histpage"
    else none
  analyze := fun p =>
    if p = "histpage" then Except.ok dfHist else Except.ok ⟨[]⟩
  plotSave := fun _ _ => Except.ok ()
  present := fun _ _ => Except.ok "presentation.pptx"
  narrate := fun _ _ => Except.ok "narration text"

/-- The report produced by a fully successful run of the pipeline in
`testEnv` on the topic "AI". -/
def repT : Report :=
  ⟨"AI", ["History of AI"], dfHist, "analysis_plot.png",
   "presentation.pptx", "narration text"⟩

/-- `testEnv` with an extractor that always raises: a post-decomposition
failure. -/
def envC1 : Env :=
  { testEnv with analyze := fun _ => Except.error "analysis failed" }

/-- `testEnv` with a decomposer that returns the empty subtopic list. -/
def envC3 : Env :=
  { testEnv with decompose := fun _ => Except.ok [] }

/-- Table extracted from the fetched page of "Good Topic". -/
def dfGood : DataFrame := ⟨[[("value", "1")]]⟩

/-- Table the extractor returns for the empty string — the input it
receives when a fetch failed and `fetch_web_data` degraded to `""`. -/
def dfEmptyPage : DataFrame := ⟨[[("value", "0")]]⟩

/-- Environment with two subtopics in which the fetch of "Bad Topic"
raises a request error while everything else succeeds; the extractor
still returns a row for the empty page text. -/
def envC4 : Env where
  decompose := fun _ => Except.ok ["Good Topic", "Bad Topic"]
  httpGet := fun u =>
    if u = urlFor "Good Topic" then some "goodpage" else none
  analyze := fun p =>
    if p = "goodpage" then Except.ok dfGood else Except.ok dfEmptyPage
  plotSave := fun _ _ => Except.ok ()
  present := fun _ _ => Except.ok "presentation.pptx"
  narrate := fun _ _ => Except.ok "narration text"

/-- `envC4` with the fetch of "Bad Topic" repaired (it now returns a
page), used to compare a failing run against the corresponding
successful one. -/
def envC4fixed : Env :=
  { envC4 with httpGet := fun u =>
      if u = urlFor "Good Topic" then some "goodpage"
      else if u = urlFor "Bad Topic" then some "badpage" else none }

/-- The report produced by the `envC4` run on topic "T": the fetch of
"Bad Topic" failed, yet a row (extracted from the empty string) is
contributed for it and nothing records the failure. -/
def repC4 : Report :=
  ⟨"T", ["Good Topic", "Bad Topic"], ⟨[[("value", "1")], [("value", "0")]]⟩,
   "analysis_plot.png", "presentation.pptx", "narration text"⟩

/-- `testEnv` with all three artifact generators raising. -/
def envC5 : Env :=
  { testEnv with
    plotSave := fun _ _ => Except.error "plot failed",
    present := fun _ _ => Except.error "pptx failed",
    narrate := fun _ _ => Except.error "tts failed" }

/-- Startup environment whose agent construction succeeds but whose MCP
submission always fails. -/
def envC7 : SysEnv :=
  { toEnv := testEnv, agentInitOk := true,
    sendReport := fun _ => Except.error "sink down" }

/-- Startup environment whose agent construction raises. -/
def envInitFail : SysEnv :=
  { toEnv := testEnv, agentInitOk := false,
    sendReport := fun _ => Except.ok () }

/-- On a loop pass whose extraction succeeds for every subtopic, the
fetch trace is exactly the locator of each subtopic, in order. -/
theorem collectLoop_urls_of_ok (env : Env) :
    ∀ (subs : List String) (dfs : List DataFrame),
      (collectLoop env subs).2 = Except.ok dfs →
      (collectLoop env subs).1 = subs.map urlFor := by
  intro subs
  induction subs with
  | nil => intro dfs _; rfl
  | cons sub rest ih =>
    intro dfs h
    cases ha : env.analyze (fetch_web_data env (urlFor sub)) with
    | error e => simp [collectLoop, ha] at h
    | ok df =>
      rcases hc : collectLoop env rest with ⟨urls, r⟩
      cases r with
      | error e => simp [collectLoop, ha, hc] at h
      | ok dfs2 =>
        have hu := ih dfs2 (by rw [hc])
        rw [hc] at hu
        have hu2 : urls = rest.map urlFor := hu
        simp [collectLoop, ha, hc, hu2]

/-- Every URL in the fetch trace of the loop is the locator of one of
the subtopics. -/
theorem mem_collectLoop_urls (env : Env) :
    ∀ (subs : List String) (q : String),
      q ∈ (collectLoop env subs).1 → ∃ sub, sub ∈ subs ∧ q = urlFor sub := by
  intro subs
  induction subs with
  | nil => intro q h; simp [collectLoop] at h
  | cons sub rest ih =>
    intro q h
    cases ha : env.analyze (fetch_web_data env (urlFor sub)) with
    | error e =>
      simp [collectLoop, ha] at h
      exact ⟨sub, by simp, h⟩
    | ok df =>
      rcases hc : collectLoop env rest with ⟨urls, r⟩
      cases r with
      | error e =>
        simp [collectLoop, ha, hc] at h
        rcases h with h | h
        · exact ⟨sub, by simp, h⟩
        · rcases ih q (by rw [hc]; exact h) with ⟨s, hs, hq⟩
          exact ⟨s, by simp [hs], hq⟩
      | ok dfs2 =>
        simp [collectLoop, ha, hc] at h
        rcases h with h | h
        · exact ⟨sub, by simp, h⟩
        · rcases ih q (by rw [hc]; exact h) with ⟨s, hs, hq⟩
          exact ⟨s, by simp [hs], hq⟩

/-- Whatever happens after step 2, the fetch trace of
`generate_research_report` is the trace of the collection loop. -/
theorem generate_fetchQueries (env : Env) (topic : String) (subs : List String)
    (hd : env.decompose topic = Except.ok subs) :
    (generate_research_report env topic).fetchQueries = (collectLoop env subs).1 := by
  rcases hc : collectLoop env subs with ⟨urls, r⟩
  cases r with
  | error e => simp [generate_research_report, hd, hc]
  | ok dataFrames =>
    cases hp : pdConcat dataFrames with
    | error e => simp [generate_research_report, hd, hc, hp]
    | ok combined =>
      cases hv : env.plotSave combined topic with
      | error e => simp [generate_research_report, hd, hc, hp, hv]
      | ok u =>
        cases hpr : env.present topic "analysis_plot.png" with
        | error e => simp [generate_research_report, hd, hc, hp, hv, hpr]
        | ok path =>
          cases hn : env.narrate topic combined with
          | error e => simp [generate_research_report, hd, hc, hp, hv, hpr, hn]
          | ok narr => simp [generate_research_report, hd, hc, hp, hv, hpr, hn]

/-- Inversion of a successful run: a non-empty dict is returned only
when every step succeeded, and then its fields are exactly the values
those steps produced. -/
theorem generate_some_inv (env : Env) (topic : String) (rep : Report)
    (h : (generate_research_report env topic).report = some rep) :
    rep.topic = topic ∧
    env.decompose topic = Except.ok rep.subtopics ∧
    rep.visualization = "analysis_plot.png" ∧
    env.plotSave rep.data topic = Except.ok () ∧
    env.present topic "analysis_plot.png" = Except.ok rep.presentation ∧
    env.narrate topic rep.data = Except.ok rep.narration ∧
    (generate_research_report env topic).fetchQueries = rep.subtopics.map urlFor ∧
    ∃ dataFrames, (collectLoop env rep.subtopics).2 = Except.ok dataFrames ∧
      pdConcat dataFrames = Except.ok rep.data := by
  cases hd : env.decompose topic with
  | error e => simp [generate_research_report, hd] at h
  | ok subs =>
    rcases hc : collectLoop env subs with ⟨urls, r⟩
    cases r with
    | error e => simp [generate_research_report, hd, hc] at h
    | ok dataFrames =>
      cases hp : pdConcat dataFrames with
      | error e => simp [generate_research_report, hd, hc, hp] at h
      | ok combined =>
        cases hv : env.plotSave combined topic with
        | error e => simp [generate_research_report, hd, hc, hp, hv] at h
        | ok u =>
          cases hpr : env.present topic "analysis_plot.png" with
          | error e => simp [generate_research_report, hd, hc, hp, hv, hpr] at h
          | ok path =>
            cases hn : env.narrate topic combined with
            | error e => simp [generate_research_report, hd, hc, hp, hv, hpr, hn] at h
            | ok narr =>
              simp only [generate_research_report, hd, hc, hp, hv, hpr, hn,
                Option.some.injEq] at h
              subst h
              have h2 : (collectLoop env subs).2 = Except.ok dataFrames := by rw [hc]
              have h1 := collectLoop_urls_of_ok env subs dataFrames h2
              rw [hc] at h1
              have hfq : (generate_research_report env topic).fetchQueries =
                  subs.map urlFor := by
                rw [generate_fetchQueries env topic subs hd, hc]; exact h1
              exact ⟨rfl, rfl, rfl, hv, rfl, hn, hfq, dataFrames, h2, hp⟩

/-- C1 (amended): `generate_research_report` always terminates and never
lets a post-decomposition failure escape as a thrown error, but any such
failure is caught by the method-wide handler and the empty dict is
returned; a non-empty Report is produced only when every step succeeded,
and then it holds exactly the values those steps produced (topic, the
decomposed subtopics, the hardcoded plot path, the presentation and
narration outputs). -/
theorem c1_generate_success_characterization (env : Env) (topic : String)
    (rep : Report)
    (h : (generate_research_report env topic).report = some rep) :
    rep.topic = topic ∧
    env.decompose topic = Except.ok rep.subtopics ∧
    rep.visualization = "analysis_plot.png" ∧
    env.plotSave rep.data topic = Except.ok () ∧
    env.present topic "analysis_plot.png" = Except.ok rep.presentation ∧
    env.narrate topic rep.data = Except.ok rep.narration := by
  obtain ⟨h1, h2, h3, h4, h5, h6, -, -⟩ := generate_some_inv env topic rep h
  exact ⟨h1, h2, h3, h4, h5, h6⟩

/-- Witness for C1: the fully successful `testEnv` run on "AI" returns
the report `repT`, and the characterization holds of it. -/
theorem c1_generate_success_characterization_witness :
    repT.topic = "AI" ∧
    testEnv.decompose "AI" = Except.ok repT.subtopics ∧
    repT.visualization = "analysis_plot.png" ∧
    testEnv.plotSave repT.data "AI" = Except.ok () ∧
    testEnv.present "AI" "analysis_plot.png" = Except.ok repT.presentation ∧
    testEnv.narrate "AI" repT.data = Except.ok repT.narration :=
  c1_generate_success_characterization testEnv "AI" repT rfl

/-- C1 as stated is false: in `envC1` decomposition succeeds (one
subtopic) and the extraction step then raises, yet the returned
dictionary is the empty one — it contains no collected pieces and no
recorded error, contradicting "the returned Report still contains all
collected pieces plus a recorded error ... it is never an empty/absent
report". -/
theorem c1_report_not_total_counterexample :
    envC1.decompose "AI" = Except.ok ["History of AI"] ∧
    (generate_research_report envC1 "AI").report = none :=
  ⟨rfl, rfl⟩

/-- C2 (amended): when the decomposer returns `subs` and
`generate_research_report` returns a non-empty report, the report's
subtopic list is exactly `subs` and the number of fetch attempts equals
the number of subtopics; no source tagging of rows is claimed, since the
pipeline adds none. -/
theorem c2_subtopics_and_fetch_count (env : Env) (topic : String)
    (subs : List String) (rep : Report)
    (hd : env.decompose topic = Except.ok subs)
    (h : (generate_research_report env topic).report = some rep) :
    rep.subtopics = subs ∧
    (generate_research_report env topic).fetchQueries.length = subs.length := by
  obtain ⟨-, hdec, -, -, -, -, hq, -⟩ := generate_some_inv env topic rep h
  rw [hd] at hdec
  have hsub : rep.subtopics = subs := (Except.ok.inj hdec).symm
  refine ⟨hsub, ?_⟩
  rw [hq, hsub, List.length_map]

/-- Witness for C2: in the `testEnv` run on "AI" the report's subtopic
list is the decomposer's one-element list and exactly one fetch was
attempted. -/
theorem c2_subtopics_and_fetch_count_witness :
    repT.subtopics = ["History of AI"] ∧
    (generate_research_report testEnv "AI").fetchQueries.length =
      (["History of AI"] : List String).length :=
  c2_subtopics_and_fetch_count testEnv "AI" ["History of AI"] repT rfl rfl

/-- C2 as stated is false: in the fully successful `testEnv` run the
aggregated table contains the row `[(value, 1)]`, and no field of that
row holds any subtopic of the subtopic list — the pipeline attaches no
source tag to rows (`pd.concat(..., ignore_index=True)` keeps them as
the extractor returned them), so rows do not trace to a subtopic. -/
theorem c2_untagged_rows_counterexample :
    testEnv.decompose "AI" = Except.ok ["History of AI"] ∧
    (generate_research_report testEnv "AI").report = some repT ∧
    [("value", "1")] ∈ repT.data.rows ∧
    rowTagged ["History of AI"] [("value", "1")] = false :=
  ⟨rfl, rfl, by decide, rfl⟩

/-- C3 (amended): if the decomposer fails or returns the empty list,
`generate_research_report` performs no fetch, never invokes the
visualization step, and returns the empty dict — `pd.concat` raises
`ValueError` on the empty list of frames (empty-list case), and the
catch-all turns either failure into `{}`; no Report marked data-empty is
produced. -/
theorem c3_empty_decomposition_returns_empty_dict (env : Env) (topic : String)
    (h : env.decompose topic = Except.ok [] ∨
      ∃ e, env.decompose topic = Except.error e) :
    generate_research_report env topic = ⟨none, [], [], 0, 0⟩ := by
  rcases h with h | ⟨e, h⟩
  · simp [generate_research_report, h, collectLoop, pdConcat]
  · simp [generate_research_report, h]

/-- Witness for C3: in `envC3` the decomposer returns the empty list and
the run yields the empty dict with an empty trace. -/
theorem c3_empty_decomposition_returns_empty_dict_witness :
    generate_research_report envC3 "AI" = ⟨none, [], [], 0, 0⟩ :=
  c3_empty_decomposition_returns_empty_dict envC3 "AI" (Or.inl rfl)

/-- C3 as stated is false: with an empty decomposition the run returns
no Report at all (`report = none`, the empty dict) and the visualization
generator is never invoked (`visArgs = []`), contradicting "the
visualization generator is invoked with the empty table ... and the
Report is returned". -/
theorem c3_report_absent_counterexample :
    envC3.decompose "AI" = Except.ok [] ∧
    (generate_research_report envC3 "AI").report = none ∧
    (generate_research_report envC3 "AI").visArgs = [] :=
  ⟨rfl, rfl, rfl⟩

/-- C4 (amended): a fetch failure is isolated but silent. If the fetch
of one locator fails, (a) every subtopic whose locator differs computes
exactly the table it would compute were that fetch repaired, (b) the
failed subtopic's table is whatever the extractor returns for the empty
string (`fetch_web_data` degrades to `""`, so its rows are not
necessarily zero), and (c) no Report carries any error entry — the
report dictionary has no error list, so no FetchFailure is ever
recorded. -/
theorem c4_fetch_failure_isolation (env envFixed : Env) (badUrl : String)
    (hA : env.analyze = envFixed.analyze)
    (hH : ∀ u, u ≠ badUrl → env.httpGet u = envFixed.httpGet u)
    (hBad : env.httpGet badUrl = none) :
    (∀ sub, urlFor sub ≠ badUrl → subtopicDF env sub = subtopicDF envFixed sub) ∧
    (∀ sub, urlFor sub = badUrl → subtopicDF env sub = env.analyze "") ∧
    (∀ rep : Report, reportErrorEntries rep = []) := by
  refine ⟨?_, ?_, fun _ => rfl⟩
  · intro sub hne
    unfold subtopicDF fetch_web_data
    rw [hH (urlFor sub) hne, hA]
  · intro sub heq
    unfold subtopicDF fetch_web_data
    rw [heq, hBad]

/-- Witness for C4: with the fetch of "Bad Topic" failing in `envC4`,
the table of "Good Topic" agrees with the repaired environment
`envC4fixed`, and "Bad Topic" gets the table extracted from the empty
string. -/
theorem c4_fetch_failure_isolation_witness :
    subtopicDF envC4 "Good Topic" = subtopicDF envC4fixed "Good Topic" ∧
    subtopicDF envC4 "Bad Topic" = envC4.analyze "" := by
  have h := c4_fetch_failure_isolation envC4 envC4fixed (urlFor "Bad Topic")
    rfl
    (fun u hu => by
      by_cases hg : u = urlFor "Good Topic"
      · simp [envC4, envC4fixed, hg]
      · simp [envC4, envC4fixed, hg, hu])
    (by decide)
  exact ⟨h.1 "Good Topic" (by decide), h.2.1 "Bad Topic" rfl⟩

/-- C4 as stated is false: in the `envC4` run on "T" the fetch of
"Bad Topic" fails, yet the returned report's table contains a row
contributed for the failed subtopic (the extractor ran on the degraded
empty string), and the report's error-entry list is empty rather than
holding exactly one FetchFailure for it. -/
theorem c4_no_fetch_failure_entry_counterexample :
    envC4.httpGet (urlFor "Bad Topic") = none ∧
    (generate_research_report envC4 "T").report = some repC4 ∧
    repC4.data.rows = [[("value", "1")], [("value", "0")]] ∧
    reportErrorEntries repC4 = [] :=
  ⟨by decide, rfl, rfl, rfl⟩

/-- C5 (amended): if the visualization step raises, the catch-all
returns the empty dict — the presentation and narration generators are
never invoked, and the returned dictionary carries neither the topic nor
the subtopics nor the table, let alone failed-Artifact entries (the
report has no artifact-status field). -/
theorem c5_plot_failure_empty_dict (env : Env) (topic : String)
    (subs : List String) (dataFrames : List DataFrame) (combined : DataFrame)
    (e : String)
    (hd : env.decompose topic = Except.ok subs)
    (hc : (collectLoop env subs).2 = Except.ok dataFrames)
    (hp : pdConcat dataFrames = Except.ok combined)
    (hv : env.plotSave combined topic = Except.error e) :
    generate_research_report env topic =
      ⟨none, subs.map urlFor, [combined], 0, 0⟩ := by
  have hurls := collectLoop_urls_of_ok env subs dataFrames hc
  rcases hcp : collectLoop env subs with ⟨urls, r⟩
  rw [hcp] at hc hurls
  have hr : r = Except.ok dataFrames := hc
  subst hr
  have hu : urls = subs.map urlFor := hurls
  subst hu
  simp [generate_research_report, hd, hcp, hp, hv]

/-- Witness for C5: in `envC5` (all three artifact generators raise) the
run on "AI" collects its data and then degrades to the empty dict at the
plotting step. -/
theorem c5_plot_failure_empty_dict_witness :
    generate_research_report envC5 "AI" =
      ⟨none, (["History of AI"] : List String).map urlFor, [dfHist], 0, 0⟩ :=
  c5_plot_failure_empty_dict envC5 "AI" ["History of AI"] [dfHist] dfHist
    "plot failed" rfl rfl rfl rfl

/-- C5 as stated is false: in `envC5` all three artifact generators
fail, and the run on "AI" returns the empty dict — no Report containing
the topic, the subtopic list, the aggregated table, or three
failed-Artifact entries is produced; the presentation and narration
generators are not even invoked. -/
theorem c5_artifact_failure_counterexample :
    envC5.plotSave dfHist "AI" = Except.error "plot failed" ∧
    envC5.present "AI" "analysis_plot.png" = Except.error "pptx failed" ∧
    envC5.narrate "AI" dfHist = Except.error "tts failed" ∧
    (generate_research_report envC5 "AI").report = none ∧
    (generate_research_report envC5 "AI").presentCalls = 0 ∧
    (generate_research_report envC5 "AI").narrateCalls = 0 :=
  ⟨rfl, rfl, rfl, rfl, rfl, rfl⟩

/-- C6: none of the four names `main.py` imports from the `tools` module
(`generate_research_topics`, `analyze_data`, `create_presentation`,
`narrate_report`) is bound in the `tools` module namespace, so the
from-tools import at src/main.py line 8 fails while `main.py` is loaded
and `ResearchAgent.generate_research_report` can never execute. -/
theorem c6_import_from_tools_fails :
    importFromToolsSucceeds = false ∧
    mainImportsFromTools.filter (fun n => toolsModuleNamespace.contains n) = [] := by
  decide

/-- C7 (amended): the entry point hardcodes both the topic and the MCP
endpoint, and its exit status ignores generation and submission
outcomes: it is 0 whenever agent construction succeeds (`run` swallows
every exception) and non-zero exactly when agent construction raises. -/
theorem c7_exit_code_ignores_submission (env : SysEnv) :
    (env.agentInitOk = true → pythonMain env = 0) ∧
    (env.agentInitOk = false → pythonMain env = 1) := by
  constructor
  · intro h; simp [pythonMain, h]
  · intro h; simp [pythonMain, h]

/-- Witness for C7: with construction succeeding (and the sink failing)
the exit status is 0; with construction failing it is 1. -/
theorem c7_exit_code_ignores_submission_witness :
    pythonMain envC7 = 0 ∧ pythonMain envInitFail = 1 :=
  ⟨(c7_exit_code_ignores_submission envC7).1 rfl,
   (c7_exit_code_ignores_submission envInitFail).2 rfl⟩

/-- C7 as stated is false: in `envC7` the submission to the sink fails,
yet the process exits with status 0, contradicting "exits ... with a
non-zero status otherwise". -/
theorem c7_exit_zero_on_sink_failure_counterexample :
    envC7.sendReport (generate_research_report envC7.toEnv
      "Artificial Intelligence in Healthcare").report =
        Except.error "sink down" ∧
    pythonMain envC7 = 0 :=
  ⟨rfl, rfl⟩

/-- C8: when `mcp_client.send_report` raises, `ResearchAgent.run`
catches it and logs exactly one error, and the report object it holds is
exactly the one `generate_research_report` returned — the submission
attempt mutates no field of it (the method body performs no assignment
to the report between generation, submission, and the handler). -/
theorem c8_sink_failure_single_error_report_unchanged (env : SysEnv)
    (topic : String) (e : String)
    (h : env.sendReport (generate_research_report env.toEnv topic).report =
      Except.error e) :
    ResearchAgent.run env topic =
      ((generate_research_report env.toEnv topic).report, 1) := by
  simp only [ResearchAgent.run]
  rw [h]

/-- Witness for C8: in `envC7` the submission of the successfully
generated report fails; `run` reports one error and still holds the
generated report unchanged. -/
theorem c8_sink_failure_single_error_report_unchanged_witness :
    ResearchAgent.run envC7 "AI" =
      ((generate_research_report envC7.toEnv "AI").report, 1) :=
  c8_sink_failure_single_error_report_unchanged envC7 "AI" "sink down" rfl

/-- C9: every locator passed to the fetch step during a run is obtained
from one of the decomposed subtopics by the fixed deterministic
transform: the prefix "https://en.wikipedia.org/wiki/" followed by the
subtopic with every space replaced by an underscore — so equal subtopic
strings always yield equal locators. -/
theorem c9_locator_deterministic (env : Env) (topic : String) (q : String)
    (h : q ∈ (generate_research_report env topic).fetchQueries) :
    ∃ subs sub, env.decompose topic = Except.ok subs ∧ sub ∈ subs ∧
      q = "https://en.wikipedia.org/wiki/" ++
        String.mk (sub.data.map (fun c => if c = ' ' then '_' else c)) := by
  cases hd : env.decompose topic with
  | error e => simp [generate_research_report, hd] at h
  | ok subs =>
    rw [generate_fetchQueries env topic subs hd] at h
    rcases mem_collectLoop_urls env subs q h with ⟨sub, hs, hq⟩
    exact ⟨subs, sub, rfl, hs, hq⟩

/-- Witness for C9: the single URL fetched in the `testEnv` run on "AI"
is the one obtained from the subtopic "History of AI" by the
prefix-and-underscore transform. -/
theorem c9_locator_deterministic_witness :
    ∃ subs sub, testEnv.decompose "AI" = Except.ok subs ∧ sub ∈ subs ∧
      "https://en.wikipedia.org/wiki/History_of_AI" =
        "https://en.wikipedia.org/wiki/" ++
          String.mk (sub.data.map (fun c => if c = ' ' then '_' else c)) :=
  c9_locator_deterministic testEnv "AI"
    "https://en.wikipedia.org/wiki/History_of_AI" (by decide)

/-- C10: the placeholder artifact generators of `tools.py` never report
failure — `generate_presentation` returns True for every slides list and
filename, and `narrate_text` returns True for every text; their error
branches are unreachable, so no caller can observe a failed presentation
or narration from these stubs. -/
theorem c10_placeholder_generators_never_fail :
    (∀ (slides : List Row) (filename : String),
        generate_presentation slides filename = true) ∧
    (∀ text : String, narrate_text text = true) :=
  ⟨fun _ _ => rfl, fun _ => rfl⟩
